import Mathlib

/-!
Shallow embedding of `src/src/main.cpp` of the smart_irrigation_moisture_sensor
repository (an Arduino/ESP32 sketch).  The sketch's global variables become the
fields of `SysState`; the functions `loop`, `processIrrigation`, `handleMenu`
and the three lambda request handlers registered in `setupServer` become state
transformers on `SysState`.  Arduino library calls are modelled by their
documented semantics: `map` is the Arduino linear rescaling with integer
division, `millis()` values are the `Nat` time arguments, `digitalWrite` on the
relay/buzzer pins sets the corresponding Boolean fields, and the ESP32
`Preferences` object is a `PrefState` holding the stored value of the single
key `"threshold"` together with the started/ended flag that `begin`/`end`
toggle (`putInt`, `getInt` and `isKey` are no-ops / defaults while the
preferences object is not started, as in the ESP32 Preferences library).
-/

/-- Digital level HIGH, modelled as `true`. -/
def HIGH : Bool := true

/-- Digital level LOW, modelled as `false`. -/
def LOW : Bool := false

/-- `const unsigned long debounceDelay = 50;` (main.cpp line 61). -/
def debounceDelay : Nat := 50

/-- `const unsigned long moistureCheckInterval = 1000;` (main.cpp line 63). -/
def moistureCheckInterval : Nat := 1000

/-- `const unsigned long thresholdAdjustInterval = 200;` (main.cpp line 65). -/
def thresholdAdjustInterval : Nat := 200

/-- Arduino `map(x, in_min, in_max, out_min, out_max)`:
`(x - in_min) * (out_max - out_min) / (in_max - in_min) + out_min`.
The sketch only calls it as `map(raw, 0, 4095, 0, 100)` on a raw ADC sample,
so all quantities are nonnegative and `Nat` arithmetic (with truncating
division, as in C) is the exact semantics. -/
def arduinoMap (x inMin inMax outMin outMax : Nat) : Nat :=
  (x - inMin) * (outMax - outMin) / (inMax - inMin) + outMin

/-- The moisture-percentage computation `100 - map(currentMoisture, 0, 4095, 0, 100)`
that appears at main.cpp lines 234 and 299 (the spec calls it
`readMoisturePercent`).  The raw analog sample is a `Nat` (the ESP32 ADC
yields 0..4095); the result is an `int` in the sketch, hence `Int` here. -/
def readMoisturePercent (raw : Nat) : Int :=
  100 - (arduinoMap raw 0 4095 0 100 : Int)

/-- State of the ESP32 `Preferences` object `pref` for the single key
`"threshold"`: whether a `begin`/`end` session is open, and the value stored
in non-volatile storage under that key (`none` if the key is absent). -/
structure PrefState where
  started : Bool
  stored : Option Int
  deriving DecidableEq, Repr

/-- `pref.begin("pref", false)` (main.cpp line 202). -/
def prefBegin (p : PrefState) : PrefState := { p with started := true }

/-- `pref.end()` (main.cpp lines 273 and 311): closes the session. -/
def prefEnd (p : PrefState) : PrefState := { p with started := false }

/-- `pref.putInt(thresh, v)`: writes only while the session is started,
otherwise it is a no-op (ESP32 Preferences returns 0 without writing when
not started). -/
def prefPutInt (p : PrefState) (v : Int) : PrefState :=
  if p.started then { p with stored := some v } else p

/-- `pref.isKey(thresh)`: `false` when the session is not started. -/
def prefIsKey (p : PrefState) : Bool := p.started && p.stored.isSome

/-- `pref.getInt(thresh)`: the stored value, with default 0 when the key is
absent or the session is not started. -/
def prefGetInt (p : PrefState) : Int :=
  if p.started then p.stored.getD 0 else 0

/-- The sketch's global mutable state (main.cpp lines 48-65) together with
the two digital outputs (relay pin 13, buzzer pin 25) and the `Preferences`
object. `systemMode`: `false` = manual, `true` = WiFi. -/
structure SysState where
  moistureThreshold : Int
  currentMoisture : Nat
  menuActive : Bool
  systemMode : Bool
  lastMenuButtonState : Bool
  lastPlusButtonState : Bool
  lastMinusButtonState : Bool
  lastDebounceTime : Nat
  lastThresholdAdjustTime : Nat
  lastMoistureCheckTime : Nat
  relay : Bool
  buzzer : Bool
  pref : PrefState
  deriving DecidableEq, Repr

/-- The `Preferences` object as it exists before `setup()` runs: default
constructed, not started, with `nvs` the content of non-volatile storage. -/
def initialPref (nvs : Option Int) : PrefState :=
  { started := false, stored := nvs }

/-- The global initializer
`int moistureThreshold = pref.isKey(thresh) ? pref.getInt(thresh) : 40;`
(main.cpp line 48).  As a dynamic initializer of a global it runs before
`setup()`, i.e. on the `Preferences` state passed to it. -/
def initMoistureThreshold (p : PrefState) : Int :=
  if prefIsKey p then prefGetInt p else 40

/-- Program state after the global initializers and `setup()` have run, as a
function of the non-volatile storage content `nvs`:  globals take their
initializers (lines 48-65), `setup()` then writes `LOW` to the relay and
buzzer pins (lines 218-219) and calls `pref.begin` (line 202).  Note the
threshold initializer runs on the *pre-begin* preferences object. -/
def startupState (nvs : Option Int) : SysState :=
  let p0 := initialPref nvs
  { moistureThreshold := initMoistureThreshold p0
    currentMoisture := 0
    menuActive := false
    systemMode := false
    lastMenuButtonState := HIGH
    lastPlusButtonState := HIGH
    lastMinusButtonState := HIGH
    lastDebounceTime := 0
    lastThresholdAdjustTime := 0
    lastMoistureCheckTime := 0
    relay := LOW
    buzzer := LOW
    pref := prefBegin p0 }

/-- Response of the `/status` handler (the JSON fields it serializes,
main.cpp lines 250-254). -/
structure StatusResponse where
  moisture : Int
  threshold : Int
  status : String
  deriving DecidableEq, Repr

/-- The `/status` request handler (main.cpp lines 232-257).  Reads a fresh
raw analog sample `raw`, computes the percentage, chooses the status string,
writes the relay only in WiFi mode, always writes the buzzer, and returns
the serialized fields. -/
def statusHandler (s : SysState) (raw : Nat) : SysState × StatusResponse :=
  let s := { s with currentMoisture := raw }
  let moisturePercentage := readMoisturePercent raw
  let status :=
    if s.systemMode then
      if moisturePercentage < s.moistureThreshold then "Irrigating (WiFi)" else "Idle (WiFi)"
    else
      if moisturePercentage < s.moistureThreshold then "Irrigating (Manual)" else "Idle (Manual)"
  let s :=
    if s.systemMode then
      { s with relay := if moisturePercentage < s.moistureThreshold then HIGH else LOW }
    else s
  let s := { s with buzzer := if moisturePercentage < 20 then HIGH else LOW }
  (s, { moisture := moisturePercentage, threshold := s.moistureThreshold, status := status })

/-- Argument of a `/threshold` request: `?action=a`, `?value=v` (with `v`
the result of Arduino `String::toInt`, an arbitrary long), or neither. -/
inductive ThresholdRequest where
  | action (a : String)
  | value (v : Int)
  | noArg
  deriving DecidableEq, Repr

/-- The `/threshold` request handler (main.cpp lines 259-275): `increase`
and `decrease` clamp with `min`/`max`; a `value` argument is stored as
parsed, unclamped; then `pref.putInt` and `pref.end()`. -/
def thresholdHandler (s : SysState) (req : ThresholdRequest) : SysState :=
  let s :=
    match req with
    | .action a =>
      if a = "increase" then
        { s with moistureThreshold := min (s.moistureThreshold + 1) 100 }
      else if a = "decrease" then
        { s with moistureThreshold := max (s.moistureThreshold - 1) 0 }
      else s
    | .value v => { s with moistureThreshold := v }
    | .noArg => s
  let s := { s with pref := prefPutInt s.pref s.moistureThreshold }
  { s with pref := prefEnd s.pref }

/-- The `/toggle-mode` request handler (main.cpp lines 277-284): flips
`systemMode` (the LCD message and `delay(1500)` have no state effect here). -/
def toggleModeHandler (s : SysState) : SysState :=
  { s with systemMode := !s.systemMode }

/-- `handleMenu(moisturePercentage)` (main.cpp lines 345-387) with the three
`digitalRead` results and `millis()` passed as arguments.  The menu button
toggles `menuActive` on a HIGH→LOW edge debounced by `debounceDelay`; while
the menu is active the held plus/minus buttons adjust the threshold on a shared
`lastThresholdAdjustTime` cadence and the result is `pref.putInt`-persisted. -/
def handleMenu (s : SysState) (menuButtonState plusButtonState minusButtonState : Bool)
    (currentTime : Nat) : SysState :=
  let s :=
    if menuButtonState = LOW ∧ s.lastMenuButtonState = HIGH ∧
        currentTime - s.lastDebounceTime > debounceDelay then
      { s with menuActive := !s.menuActive, lastDebounceTime := currentTime }
    else s
  let s := { s with lastMenuButtonState := menuButtonState }
  let s :=
    if s.menuActive then
      let s :=
        if plusButtonState = LOW ∧
            currentTime - s.lastThresholdAdjustTime ≥ thresholdAdjustInterval then
          { s with moistureThreshold := min (s.moistureThreshold + 1) 100,
                   lastThresholdAdjustTime := currentTime }
        else s
      let s :=
        if minusButtonState = LOW ∧
            currentTime - s.lastThresholdAdjustTime ≥ thresholdAdjustInterval then
          { s with moistureThreshold := max (s.moistureThreshold - 1) 0,
                   lastThresholdAdjustTime := currentTime }
        else s
      { s with pref := prefPutInt s.pref s.moistureThreshold }
    else s
  { s with lastPlusButtonState := plusButtonState, lastMinusButtonState := minusButtonState }

/-- `processIrrigation(moisturePercentage)` (main.cpp lines 313-343): in
manual mode the relay follows `moisturePercentage < moistureThreshold`; in
WiFi mode the relay is not written; the buzzer always follows
`moisturePercentage < 20`. -/
def processIrrigation (s : SysState) (moisturePercentage : Int) : SysState :=
  let s :=
    if !s.systemMode then
      if moisturePercentage < s.moistureThreshold then { s with relay := HIGH }
      else { s with relay := LOW }
    else s
  if moisturePercentage < 20 then { s with buzzer := HIGH } else { s with buzzer := LOW }

/-- The sampling part of `loop()` (main.cpp lines 295-310): when the
sampling interval has elapsed, read the sensor, run `handleMenu`, run
`processIrrigation` only if the menu is not active, and record the tick
time.  `server.handleClient()` is modelled separately by the request
handlers above. -/
def loopTick (s : SysState) (raw : Nat) (menuButtonState plusButtonState minusButtonState : Bool)
    (currentTime : Nat) : SysState :=
  if currentTime - s.lastMoistureCheckTime ≥ moistureCheckInterval then
    let s := { s with currentMoisture := raw }
    let moisturePercentage := readMoisturePercent raw
    let s := handleMenu s menuButtonState plusButtonState minusButtonState currentTime
    let s := if !s.menuActive then processIrrigation s moisturePercentage else s
    { s with lastMoistureCheckTime := currentTime }
  else s

/-- One full `loop()` body minus `server.handleClient()` (main.cpp lines
291-312): the sampling tick followed by the unconditional `pref.end()` at
line 311. -/
def loopBody (s : SysState) (raw : Nat) (menuButtonState plusButtonState minusButtonState : Bool)
    (currentTime : Nat) : SysState :=
  let s := loopTick s raw menuButtonState plusButtonState minusButtonState currentTime
  { s with pref := prefEnd s.pref }

/-- Concrete state used for menu-invariant scenarios: fresh startup with the
menu opened (menuActive set), manual mode. -/
def menuOnState : SysState := { startupState none with menuActive := true }

/-- Concrete state with the menu open while in WiFi mode. -/
def menuWiFiState : SysState :=
  { startupState none with menuActive := true, systemMode := true }

/-- Concrete state with the menu open and the buzzer currently HIGH (as left
by an earlier low-moisture tick). -/
def menuStaleBuzzerState : SysState :=
  { startupState none with menuActive := true, buzzer := HIGH }

/-- Concrete state in WiFi mode at the default threshold 40. -/
def wifiIdleState : SysState := { startupState none with systemMode := true }

/-- Concrete reachable state with an out-of-range threshold: a
`/threshold?value=500` request (stored unclamped) followed by a debounced
menu-button press at t=1000 that opens the menu. -/
def outOfRangeMenuState : SysState :=
  handleMenu (thresholdHandler (startupState none) (.value 500)) LOW HIGH HIGH 1000

/-! ## Helper lemmas -/

/-- `handleMenu` never writes the relay pin. -/
lemma handleMenu_relay (s : SysState) (mb pb nb : Bool) (t : Nat) :
    (handleMenu s mb pb nb t).relay = s.relay := by
  simp only [handleMenu]
  split_ifs <;> rfl

/-- `handleMenu` never writes the buzzer pin. -/
lemma handleMenu_buzzer (s : SysState) (mb pb nb : Bool) (t : Nat) :
    (handleMenu s mb pb nb t).buzzer = s.buzzer := by
  simp only [handleMenu]
  split_ifs <;> rfl

/-- `handleMenu` never changes `systemMode`. -/
lemma handleMenu_systemMode (s : SysState) (mb pb nb : Bool) (t : Nat) :
    (handleMenu s mb pb nb t).systemMode = s.systemMode := by
  simp only [handleMenu]
  split_ifs <;> rfl

/-- `handleMenu` commutes with updating the `currentMoisture` cache (it
neither reads nor writes that global). -/
lemma handleMenu_set_currentMoisture (s : SysState) (raw : Nat) (mb pb nb : Bool) (t : Nat) :
    handleMenu { s with currentMoisture := raw } mb pb nb t
      = { handleMenu s mb pb nb t with currentMoisture := raw } := by
  simp only [handleMenu]
  split_ifs <;> rfl

/-- Characterization of the `menuActive` toggle performed by `handleMenu`. -/
lemma handleMenu_menuActive_eq (s : SysState) (mb pb nb : Bool) (t : Nat) :
    (handleMenu s mb pb nb t).menuActive =
      if mb = LOW ∧ s.lastMenuButtonState = HIGH ∧ t - s.lastDebounceTime > debounceDelay
      then !s.menuActive else s.menuActive := by
  simp only [handleMenu]
  split_ifs <;> rfl

/-- Characterization of the debounce timestamp update in `handleMenu`. -/
lemma handleMenu_lastDebounceTime_eq (s : SysState) (mb pb nb : Bool) (t : Nat) :
    (handleMenu s mb pb nb t).lastDebounceTime =
      if mb = LOW ∧ s.lastMenuButtonState = HIGH ∧ t - s.lastDebounceTime > debounceDelay
      then t else s.lastDebounceTime := by
  simp only [handleMenu]
  split_ifs <;> rfl

/-- `handleMenu` records the sampled menu-button level. -/
lemma handleMenu_lastMenuButtonState (s : SysState) (mb pb nb : Bool) (t : Nat) :
    (handleMenu s mb pb nb t).lastMenuButtonState = mb := by
  simp only [handleMenu]
  split_ifs <;> rfl

/-- In WiFi mode `processIrrigation` does not write the relay. -/
lemma processIrrigation_relay_wifi (s : SysState) (mp : Int) (hw : s.systemMode = true) :
    (processIrrigation s mp).relay = s.relay := by
  simp only [processIrrigation]
  split_ifs <;> simp_all

/-- `processIrrigation` always writes the buzzer from the 20-percent alarm
comparison. -/
lemma processIrrigation_buzzer (s : SysState) (mp : Int) :
    (processIrrigation s mp).buzzer = (if mp < 20 then HIGH else LOW) := by
  simp only [processIrrigation]
  split_ifs <;> rfl

/-- Bound on the linear rescaling of a valid raw ADC sample. -/
lemma moisture_div_le (raw : Nat) (h : raw ≤ 4095) : raw * 100 / 4095 ≤ 100 := by
  have h1 : raw * 100 / 4095 ≤ 4095 * 100 / 4095 := Nat.div_le_div_right (by omega)
  simpa using h1

/-- Starting from a threshold in [0,100], one `handleMenu` call keeps it in
[0,100]. -/
lemma handleMenu_threshold_bounds (s : SysState) (mb pb nb : Bool) (t : Nat)
    (h0 : 0 ≤ s.moistureThreshold) (h1 : s.moistureThreshold ≤ 100) :
    0 ≤ (handleMenu s mb pb nb t).moistureThreshold ∧
      (handleMenu s mb pb nb t).moistureThreshold ≤ 100 := by
  simp only [handleMenu]
  split_ifs <;> simp_all <;> omega

/-- Starting from a threshold in [0,100], one `handleMenu` call moves it by
at most 1. -/
lemma handleMenu_threshold_delta (s : SysState) (mb pb nb : Bool) (t : Nat)
    (h0 : 0 ≤ s.moistureThreshold) (h1 : s.moistureThreshold ≤ 100) :
    |(handleMenu s mb pb nb t).moistureThreshold - s.moistureThreshold| ≤ 1 := by
  simp only [handleMenu]
  split_ifs <;> simp_all [abs_le] <;> omega

/-! ## Claim C6 -/

/-- Claim C6: for every raw analog sample in [0,4095] the computed moisture
percentage is in [0,100], and the percentage is monotonically non-increasing
in the raw sample (dry-high orientation). -/
theorem readMoisturePercent_range_and_mono (raw r1 r2 : Nat)
    (h : raw ≤ 4095) (h12 : r1 ≤ r2) :
    (0 ≤ readMoisturePercent raw ∧ readMoisturePercent raw ≤ 100) ∧
    readMoisturePercent r2 ≤ readMoisturePercent r1 := by
  have hb := moisture_div_le raw h
  have hmono : r1 * 100 / 4095 ≤ r2 * 100 / 4095 := Nat.div_le_div_right (by omega)
  simp only [readMoisturePercent, arduinoMap] at *
  omega

/-- Witness for C6 at raw = 2048 (range) and the pair 1 ≤ 4095 (monotone). -/
theorem readMoisturePercent_witness :
    (0 ≤ readMoisturePercent 2048 ∧ readMoisturePercent 2048 ≤ 100) ∧
    readMoisturePercent 4095 ≤ readMoisturePercent 1 :=
  readMoisturePercent_range_and_mono 2048 1 4095 (by decide) (by decide)

/-! ## Claim C5 -/

/-- Claim C5: with moisture percentage 15 (raw sample 3481), threshold 40,
manual mode and menu closed, the control step sets relay HIGH and buzzer
HIGH, and a `/status` request reports "Irrigating (Manual)". -/
theorem manual_irrigating_at_15 (s : SysState)
    (hw : s.systemMode = false) (hmenu : s.menuActive = false) (ht : s.moistureThreshold = 40) :
    (processIrrigation s 15).relay = HIGH ∧ (processIrrigation s 15).buzzer = HIGH ∧
    readMoisturePercent 3481 = 15 ∧ (statusHandler s 3481).2.status = "Irrigating (Manual)" := by
  have h15 : readMoisturePercent 3481 = 15 := by decide
  refine ⟨?_, ?_, h15, ?_⟩
  · simp only [processIrrigation, hw, ht]
    norm_num [HIGH, LOW]
  · simp only [processIrrigation, hw, ht]
    norm_num [HIGH, LOW]
  · simp only [statusHandler, hw, ht, h15]
    norm_num

/-- Witness for C5 at the startup state (manual mode, menu closed,
threshold 40). -/
theorem manual_irrigating_witness :
    (processIrrigation (startupState none) 15).relay = HIGH ∧
    (processIrrigation (startupState none) 15).buzzer = HIGH ∧
    readMoisturePercent 3481 = 15 ∧
    (statusHandler (startupState none) 3481).2.status = "Irrigating (Manual)" :=
  manual_irrigating_at_15 (startupState none) (by decide) (by decide) (by decide)

/-! ## Claim C2 -/

/-- Claim C2 (amended): the button and `?action=increase` / `?action=decrease`
mutations keep the threshold in [0,100], with increase clamping at 100 and
decrease clamping at 0; the `?value=N` mutation stores N unclamped, so its
result is in [0,100] only when N is. -/
theorem threshold_mutations_clamped (s : SysState) (mb pb nb : Bool) (t : Nat) (v : Int)
    (h0 : 0 ≤ s.moistureThreshold) (h1 : s.moistureThreshold ≤ 100) :
    (0 ≤ (thresholdHandler s (.action "increase")).moistureThreshold ∧
      (thresholdHandler s (.action "increase")).moistureThreshold ≤ 100) ∧
    (0 ≤ (thresholdHandler s (.action "decrease")).moistureThreshold ∧
      (thresholdHandler s (.action "decrease")).moistureThreshold ≤ 100) ∧
    (s.moistureThreshold = 100 →
      (thresholdHandler s (.action "increase")).moistureThreshold = 100) ∧
    (s.moistureThreshold = 0 →
      (thresholdHandler s (.action "decrease")).moistureThreshold = 0) ∧
    (0 ≤ (handleMenu s mb pb nb t).moistureThreshold ∧
      (handleMenu s mb pb nb t).moistureThreshold ≤ 100) ∧
    (thresholdHandler s (.value v)).moistureThreshold = v := by
  refine ⟨?_, ?_, ?_, ?_, handleMenu_threshold_bounds s mb pb nb t h0 h1, ?_⟩
  · simp [thresholdHandler]; omega
  · simp [thresholdHandler]; omega
  · intro h; simp [thresholdHandler, h]
  · intro h; simp [thresholdHandler, h]
  · simp [thresholdHandler]

/-- Witness for C2 at the startup state (threshold 40) with a held plus
button at t = 1000 and the in-range value request 55. -/
theorem threshold_mutations_clamped_witness :
    (0 ≤ (thresholdHandler (startupState none) (.action "increase")).moistureThreshold ∧
      (thresholdHandler (startupState none) (.action "increase")).moistureThreshold ≤ 100) ∧
    (0 ≤ (thresholdHandler (startupState none) (.action "decrease")).moistureThreshold ∧
      (thresholdHandler (startupState none) (.action "decrease")).moistureThreshold ≤ 100) ∧
    ((startupState none).moistureThreshold = 100 →
      (thresholdHandler (startupState none) (.action "increase")).moistureThreshold = 100) ∧
    ((startupState none).moistureThreshold = 0 →
      (thresholdHandler (startupState none) (.action "decrease")).moistureThreshold = 0) ∧
    (0 ≤ (handleMenu (startupState none) HIGH LOW HIGH 1000).moistureThreshold ∧
      (handleMenu (startupState none) HIGH LOW HIGH 1000).moistureThreshold ≤ 100) ∧
    (thresholdHandler (startupState none) (.value 55)).moistureThreshold = 55 :=
  threshold_mutations_clamped (startupState none) HIGH LOW HIGH 1000 55 (by decide) (by decide)

/-- Counterexample to C2 as stated: the network request `?value=101` stores
threshold 101, outside [0,100], both in memory and in storage. -/
theorem threshold_value_unclamped :
    (thresholdHandler (startupState none) (.value 101)).moistureThreshold = 101 ∧
    (thresholdHandler (startupState none) (.value 101)).pref.stored = some 101 ∧
    ¬((thresholdHandler (startupState none) (.value 101)).moistureThreshold ≤ 100) := by
  decide

/-! ## Claim C1 -/

/-- Claim C1 (amended): while `menuActive` is true at the actuation check, a
sampling tick performs no relay change in any mode; the `/threshold` and
`/toggle-mode` handlers never change the relay; and a `/status` request in
manual mode does not change the relay.  (The excluded path, `/status` in
WiFi mode, is the counterexample to the claim as stated.) -/
theorem menu_blocks_relay_except_wifi_status (s : SysState) (raw raw2 : Nat)
    (mb pb nb : Bool) (t : Nat) (req : ThresholdRequest)
    (hm : (handleMenu s mb pb nb t).menuActive = true) :
    (loopTick s raw mb pb nb t).relay = s.relay ∧
    (thresholdHandler s req).relay = s.relay ∧
    (toggleModeHandler s).relay = s.relay ∧
    (s.systemMode = false → ((statusHandler s raw2).1).relay = s.relay) := by
  refine ⟨?_, ?_, rfl, ?_⟩
  · simp only [loopTick]
    split_ifs with htick hnm
    · have h1 : (handleMenu { s with currentMoisture := raw } mb pb nb t).menuActive = true := by
        rw [handleMenu_set_currentMoisture]; exact hm
      simp [h1] at hnm
    · simp [handleMenu_relay]
    · rfl
  · cases req with
    | action a =>
      simp only [thresholdHandler]
      split_ifs <;> rfl
    | value v => rfl
    | noArg => rfl
  · intro hw
    simp only [statusHandler]
    split_ifs <;> simp_all

/-- Witness for C1 (amended) at a menu-open manual-mode startup state. -/
theorem menu_blocks_relay_witness :
    (loopTick menuOnState 2048 HIGH HIGH HIGH 2000).relay = menuOnState.relay ∧
    (thresholdHandler menuOnState .noArg).relay = menuOnState.relay ∧
    (toggleModeHandler menuOnState).relay = menuOnState.relay ∧
    (menuOnState.systemMode = false →
      ((statusHandler menuOnState 2048).1).relay = menuOnState.relay) :=
  menu_blocks_relay_except_wifi_status menuOnState 2048 2048 HIGH HIGH HIGH 2000 .noArg (by decide)

/-- Counterexample to C1 as stated: with the menu open in WiFi mode, a
`/status` request at moisture 15 (below threshold 40) switches the relay
from LOW to HIGH. -/
theorem status_writes_relay_during_menu :
    menuWiFiState.menuActive = true ∧ menuWiFiState.relay = LOW ∧
    menuWiFiState.moistureThreshold = 40 ∧ readMoisturePercent 3481 = 15 ∧
    ((statusHandler menuWiFiState 3481).1).relay = HIGH := by
  decide

/-! ## Claim C3 -/

/-- Claim C3 (amended): after every `/status` request the buzzer is HIGH iff
the moisture percentage is below 20, independent of mode and menu state; a
sampling tick establishes the same equivalence whenever `menuActive` is
false at the actuation check (a menu-open tick skips the buzzer write). -/
theorem buzzer_tracks_moisture (s : SysState) (raw raw2 : Nat) (mb pb nb : Bool) (t : Nat) :
    (((statusHandler s raw2).1).buzzer = HIGH ↔ readMoisturePercent raw2 < 20) ∧
    ((handleMenu s mb pb nb t).menuActive = false →
      t - s.lastMoistureCheckTime ≥ moistureCheckInterval →
      ((loopTick s raw mb pb nb t).buzzer = HIGH ↔ readMoisturePercent raw < 20)) := by
  constructor
  · simp only [statusHandler]
    split_ifs <;> simp_all [HIGH, LOW]
  · intro hm htick
    simp only [loopTick]
    rw [if_pos htick]
    have h1 : (handleMenu { s with currentMoisture := raw } mb pb nb t).menuActive = false := by
      rw [handleMenu_set_currentMoisture]; exact hm
    have h2 := processIrrigation_buzzer (handleMenu { s with currentMoisture := raw } mb pb nb t)
      (readMoisturePercent raw)
    simp [h1, h2, HIGH, LOW]

/-- Witness for C3 (amended) at the startup state with raw sample 3481
(moisture 15, below the alarm threshold). -/
theorem buzzer_tracks_moisture_witness :
    (((statusHandler (startupState none) 3481).1).buzzer = HIGH ↔ readMoisturePercent 3481 < 20) ∧
    ((loopTick (startupState none) 3481 HIGH HIGH HIGH 2000).buzzer = HIGH ↔
      readMoisturePercent 3481 < 20) :=
  ⟨(buzzer_tracks_moisture (startupState none) 3481 3481 HIGH HIGH HIGH 2000).1,
   (buzzer_tracks_moisture (startupState none) 3481 3481 HIGH HIGH HIGH 2000).2
     (by decide) (by decide)⟩

/-- Counterexample to C3 as stated: a sampling tick with the menu open keeps
the buzzer HIGH although the current moisture is 50, not below 20. -/
theorem menu_tick_leaves_buzzer_stale :
    menuStaleBuzzerState.menuActive = true ∧
    readMoisturePercent 2048 = 50 ∧ ¬((50 : Int) < 20) ∧
    (loopTick menuStaleBuzzerState 2048 HIGH HIGH HIGH 2000).lastMoistureCheckTime = 2000 ∧
    (loopTick menuStaleBuzzerState 2048 HIGH HIGH HIGH 2000).buzzer = HIGH := by
  decide

/-! ## Claim C4 -/

/-- Claim C4: in WiFi mode a `/status` request with moisture 50 and
threshold 40 reports "Idle (WiFi)" and writes the relay LOW as a side
effect, and the local sampling tick never changes the relay in WiFi mode. -/
theorem wifi_defers_relay_to_status (s : SysState) (raw raw2 : Nat) (mb pb nb : Bool) (t : Nat)
    (hw : s.systemMode = true) :
    (s.moistureThreshold = 40 → readMoisturePercent raw = 50 →
      ((statusHandler s raw).2.status = "Idle (WiFi)" ∧ ((statusHandler s raw).1).relay = LOW)) ∧
    (loopTick s raw2 mb pb nb t).relay = s.relay := by
  constructor
  · intro ht hraw
    constructor <;> simp [statusHandler, hw, ht, hraw, HIGH, LOW]
  · simp only [loopTick]
    split_ifs with htick hnm
    · have hs : (handleMenu { s with currentMoisture := raw2 } mb pb nb t).systemMode = true := by
        rw [handleMenu_set_currentMoisture]
        simp [handleMenu_systemMode, hw]
      have h2 := processIrrigation_relay_wifi
        (handleMenu { s with currentMoisture := raw2 } mb pb nb t) (readMoisturePercent raw2) hs
      simp [h2, handleMenu_relay]
    · simp [handleMenu_relay]
    · rfl

/-- Witness for C4 at the WiFi-mode startup state with raw sample 2048
(moisture 50). -/
theorem wifi_defers_relay_witness :
    (wifiIdleState.moistureThreshold = 40 → readMoisturePercent 2048 = 50 →
      ((statusHandler wifiIdleState 2048).2.status = "Idle (WiFi)" ∧
        ((statusHandler wifiIdleState 2048).1).relay = LOW)) ∧
    (loopTick wifiIdleState 2048 HIGH HIGH HIGH 2000).relay = wifiIdleState.relay :=
  wifi_defers_relay_to_status wifiIdleState 2048 2048 HIGH HIGH HIGH 2000 (by decide)

/-! ## Claim C7 -/

/-- Claim C7 (amended): after an accepted press edge, a second press edge at
most 50 ms later is suppressed (exactly one toggle), and a second press edge
strictly more than 50 ms later toggles again (two toggles); the comparison at
exactly 50 ms is strict, so the claim's "at least 50 ms" boundary case yields
one toggle, not two. -/
theorem debounce_edge_toggles (s : SysState) (t1 t2 t3 : Nat)
    (hlast : s.lastMenuButtonState = HIGH)
    (h1 : t1 - s.lastDebounceTime > debounceDelay) :
    ((handleMenu s LOW HIGH HIGH t1).menuActive = !s.menuActive) ∧
    (t3 - t1 ≤ debounceDelay →
      (handleMenu (handleMenu (handleMenu s LOW HIGH HIGH t1) HIGH HIGH HIGH t2)
        LOW HIGH HIGH t3).menuActive = !s.menuActive) ∧
    (t3 - t1 > debounceDelay →
      (handleMenu (handleMenu (handleMenu s LOW HIGH HIGH t1) HIGH HIGH HIGH t2)
        LOW HIGH HIGH t3).menuActive = s.menuActive) := by
  obtain ⟨s1, hs1, e1, e1d, e1b⟩ :
      ∃ s1, handleMenu s LOW HIGH HIGH t1 = s1 ∧ s1.menuActive = !s.menuActive ∧
        s1.lastDebounceTime = t1 ∧ s1.lastMenuButtonState = LOW := by
    refine ⟨_, rfl, ?_, ?_, handleMenu_lastMenuButtonState _ _ _ _ _⟩
    · rw [handleMenu_menuActive_eq, if_pos ⟨rfl, hlast, h1⟩]
    · rw [handleMenu_lastDebounceTime_eq, if_pos ⟨rfl, hlast, h1⟩]
  rw [hs1]
  obtain ⟨s2, hs2, e2, e2d, e2b⟩ :
      ∃ s2, handleMenu s1 HIGH HIGH HIGH t2 = s2 ∧ s2.menuActive = s1.menuActive ∧
        s2.lastDebounceTime = s1.lastDebounceTime ∧ s2.lastMenuButtonState = HIGH := by
    refine ⟨_, rfl, ?_, ?_, handleMenu_lastMenuButtonState _ _ _ _ _⟩
    · rw [handleMenu_menuActive_eq, if_neg]
      rintro ⟨hc, -, -⟩
      exact absurd hc (by decide)
    · rw [handleMenu_lastDebounceTime_eq, if_neg]
      rintro ⟨hc, -, -⟩
      exact absurd hc (by decide)
  rw [hs2]
  refine ⟨e1, ?_, ?_⟩
  · intro hle
    have hc : ¬(LOW = LOW ∧ s2.lastMenuButtonState = HIGH ∧
        t3 - s2.lastDebounceTime > debounceDelay) := by
      rw [e2d, e1d]
      rintro ⟨-, -, hgt⟩
      omega
    rw [handleMenu_menuActive_eq, if_neg hc, e2, e1]
  · intro hgt
    have hc : LOW = LOW ∧ s2.lastMenuButtonState = HIGH ∧
        t3 - s2.lastDebounceTime > debounceDelay := ⟨rfl, e2b, by rw [e2d, e1d]; exact hgt⟩
    rw [handleMenu_menuActive_eq, if_pos hc, e2, e1, Bool.not_not]

/-- Witness for C7 (amended): press edges at t = 100 and t = 150 from the
startup state (both cases of the amended statement instantiated). -/
theorem debounce_edge_toggles_witness :
    ((handleMenu (startupState none) LOW HIGH HIGH 100).menuActive = !(startupState none).menuActive) ∧
    (150 - 100 ≤ debounceDelay →
      (handleMenu (handleMenu (handleMenu (startupState none) LOW HIGH HIGH 100) HIGH HIGH HIGH 120)
        LOW HIGH HIGH 150).menuActive = !(startupState none).menuActive) ∧
    (150 - 100 > debounceDelay →
      (handleMenu (handleMenu (handleMenu (startupState none) LOW HIGH HIGH 100) HIGH HIGH HIGH 120)
        LOW HIGH HIGH 150).menuActive = (startupState none).menuActive) :=
  debounce_edge_toggles (startupState none) 100 120 150 (by decide) (by decide)

/-- Counterexample to C7 as stated: two press edges separated by exactly
50 ms (at least 50 ms apart) produce only one toggle, because the debounce
comparison `>` rejects the boundary; menuActive ends true, not back at
false. -/
theorem debounce_boundary_single_toggle :
    (150 : Nat) - 100 ≥ debounceDelay ∧
    (startupState none).menuActive = false ∧
    (handleMenu (startupState none) LOW HIGH HIGH 100).menuActive = true ∧
    (handleMenu (handleMenu (handleMenu (startupState none) LOW HIGH HIGH 100) HIGH HIGH HIGH 120)
      LOW HIGH HIGH 150).menuActive = true := by
  decide

/-! ## Claim C8 -/

/-- Claim C8 is contradicted by the code: every threshold mutation does call
`pref.putInt` synchronously, but the `/threshold` handler ends with
`pref.end()` (and `loop()` calls `pref.end()` every iteration), so the
Preferences session is closed after the first mutation and every later
`putInt` writes nothing.  Concretely, after two successive
`?action=increase` requests the in-memory threshold is 42 while storage
still holds 41. -/
theorem persistence_broken_by_pref_end :
    (thresholdHandler (startupState (some 40)) (.action "increase")).moistureThreshold = 41 ∧
    (thresholdHandler (startupState (some 40)) (.action "increase")).pref.stored = some 41 ∧
    (thresholdHandler (startupState (some 40)) (.action "increase")).pref.started = false ∧
    (thresholdHandler (thresholdHandler (startupState (some 40)) (.action "increase"))
      (.action "increase")).moistureThreshold = 42 ∧
    (thresholdHandler (thresholdHandler (startupState (some 40)) (.action "increase"))
      (.action "increase")).pref.stored = some 41 := by
  decide

/-! ## Claim C9 -/

/-- Claim C9 is contradicted by the code: the global initializer of
`moistureThreshold` runs before `setup()` calls `pref.begin`, so
`pref.isKey` is false and the startup threshold is always the default 40,
even when storage holds 70 (a post-`begin` read would have returned 70). -/
theorem startup_threshold_always_default :
    (startupState (some 70)).moistureThreshold = 40 ∧
    (startupState none).moistureThreshold = 40 ∧
    prefIsKey (prefBegin (initialPref (some 70))) = true ∧
    prefGetInt (prefBegin (initialPref (some 70))) = 70 := by
  decide

/-! ## Claim C10 -/

/-- Claim C10 (amended): provided the threshold on entry is in [0,100] (which
every path except the unclamped `?value` request preserves), a single
`handleMenu` call changes the threshold by at most 1 in absolute value, and
when both adjustment buttons are held with the shared repeat interval
elapsed, the plus adjustment fires and the minus adjustment is blocked by
the just-updated shared timestamp. -/
theorem menu_adjust_at_most_one (s : SysState) (mb pb nb : Bool) (t : Nat)
    (h0 : 0 ≤ s.moistureThreshold) (h1 : s.moistureThreshold ≤ 100) :
    |(handleMenu s mb pb nb t).moistureThreshold - s.moistureThreshold| ≤ 1 ∧
    ((handleMenu s mb LOW LOW t).menuActive = true →
      t - s.lastThresholdAdjustTime ≥ thresholdAdjustInterval →
      (handleMenu s mb LOW LOW t).moistureThreshold = min (s.moistureThreshold + 1) 100) := by
  refine ⟨handleMenu_threshold_delta s mb pb nb t h0 h1, ?_⟩
  intro hmenu hint
  rw [handleMenu_menuActive_eq] at hmenu
  simp only [handleMenu]
  split_ifs at hmenu ⊢ <;> simp_all [thresholdAdjustInterval]

/-- Witness for C10 (amended) at a menu-open startup state with both
adjustment buttons held at t = 1000: the threshold moves from 40 to 41. -/
theorem menu_adjust_witness :
    |(handleMenu menuOnState HIGH LOW LOW 1000).moistureThreshold -
        menuOnState.moistureThreshold| ≤ 1 ∧
    ((handleMenu menuOnState HIGH LOW LOW 1000).menuActive = true →
      1000 - menuOnState.lastThresholdAdjustTime ≥ thresholdAdjustInterval →
      (handleMenu menuOnState HIGH LOW LOW 1000).moistureThreshold =
        min (menuOnState.moistureThreshold + 1) 100) :=
  menu_adjust_at_most_one menuOnState HIGH LOW LOW 1000 (by decide) (by decide)

/-- Counterexample to C10 as stated: from the reachable state with threshold
500 (set by the unclamped `?value=500` request, then menu opened), one
`handleMenu` call with the plus button held clamps the threshold to 100, a
change of 400 in a single call. -/
theorem menu_adjust_big_jump :
    outOfRangeMenuState.menuActive = true ∧
    outOfRangeMenuState.moistureThreshold = 500 ∧
    (handleMenu outOfRangeMenuState HIGH LOW HIGH 2000).moistureThreshold = 100 ∧
    ¬(|(handleMenu outOfRangeMenuState HIGH LOW HIGH 2000).moistureThreshold -
        outOfRangeMenuState.moistureThreshold| ≤ 1) := by
  decide
